import Mathlib

/-!
Shallow embedding of the screening-assessment engine and
session/authentication state machine of `mental_health_app.py`
(Digital-Mental-Health repository), together with theorems settling the
specification claims about it.

Conventions:
* Python `range(lo, hi)` membership tests become `inRangeB lo hi t`
  (`lo ≤ t ∧ t < hi` over `ℤ`).
* The SQLite users table (`id INTEGER PRIMARY KEY AUTOINCREMENT`,
  `username UNIQUE`) is modelled as a list of rows plus the next
  auto-increment id, which starts at 1.
* `hashlib.sha256(...).hexdigest()` is an external one-way digest; auth
  operations are parametrised over an arbitrary digest function
  `hashF : String → String`, exactly as the code only ever stores and
  compares its outputs.
* Streamlit session state becomes the explicit record `SessionSt`.
-/

namespace MentalHealthApp

/-! ### Assessment engine (screening_page) -/

/-- Membership in Python `range(lo, hi)` for an integer `t`. -/
def inRangeB (lo hi t : ℤ) : Bool := lo ≤ t && t < hi

/-- PHQ-9 categorisation from `PHQ9_THRESHOLDS` and the if/elif chain in
`screening_page`: the fallback label is `"Unknown"`, the severe band is
`range(20, 100)`. -/
def phq9Categorize (t : ℤ) : String :=
  if inRangeB 0 10 t then "None to Mild Depression"
  else if inRangeB 10 15 t then "Moderate Depression"
  else if inRangeB 15 20 t then "Moderately Severe Depression"
  else if inRangeB 20 100 t then "Severe Depression"
  else "Unknown"

/-- GAD-7 categorisation from `GAD7_THRESHOLDS`: the severe band is
`range(15, 22)`, fallback `"Unknown"`. -/
def gad7Categorize (t : ℤ) : String :=
  if inRangeB 0 10 t then "None to Mild Anxiety"
  else if inRangeB 10 15 t then "Moderate Anxiety"
  else if inRangeB 15 22 t then "Severe Anxiety"
  else "Unknown"

/-- `total_score = sum(results)`. -/
def totalScore (results : List ℤ) : ℤ := results.sum

/-- The escalation check `total_score >= 10` guarding the crisis prompt. -/
def escalation (total : ℤ) : Bool := 10 ≤ total

/-- A response sequence is valid for an instrument with `n` questions when
it has length `n` and every answer is one of the radio indices 0..3. -/
def ValidResponses (n : ℕ) (results : List ℤ) : Prop :=
  results.length = n ∧ ∀ x ∈ results, 0 ≤ x ∧ x ≤ 3

instance (n : ℕ) (results : List ℤ) : Decidable (ValidResponses n results) := by
  unfold ValidResponses; infer_instance

/-- A row of the `screening_results` table as inserted by the engine. -/
structure ScreeningResult where
  user_id : ℤ
  test_type : String
  score : ℤ
  category : String
deriving DecidableEq, Repr

/-- The PHQ-9 "Calculate My PHQ-9 Score" handler: computes the total and
category, unconditionally appends one row to `screening_results`, and
reports whether the crisis prompt is shown. No validation of `results`
is performed. -/
def phq9Submit (store : List ScreeningResult) (uid : ℤ) (results : List ℤ) :
    List ScreeningResult × Bool :=
  let total := totalScore results
  let category := phq9Categorize total
  (store ++ [⟨uid, "PHQ-9", total, category⟩], escalation total)

/-- The GAD-7 "Calculate My GAD-7 Score" handler, analogous to
`phq9Submit`. -/
def gad7Submit (store : List ScreeningResult) (uid : ℤ) (results : List ℤ) :
    List ScreeningResult × Bool :=
  let total := totalScore results
  let category := gad7Categorize total
  (store ++ [⟨uid, "GAD-7", total, category⟩], escalation total)

/-! ### Credential store and auth service -/

/-- A row of the `users` table. -/
structure UserRow where
  id : ℤ
  username : String
  password : String
deriving DecidableEq, Repr

/-- The `users` table plus SQLite's auto-increment counter. -/
structure UsersTable where
  rows : List UserRow
  next_id : ℤ
deriving DecidableEq, Repr

/-- Freshly initialised database: no users, auto-increment starts at 1. -/
def initUsersTable : UsersTable := ⟨[], 1⟩

/-- `signup`: INSERT with the UNIQUE constraint on `username`; a duplicate
raises `IntegrityError`, which is caught and reported as `false`, leaving
the table untouched. On success the new row gets the auto-increment id. -/
def signup (hashF : String → String) (db : UsersTable)
    (username password : String) : UsersTable × Bool :=
  if db.rows.any fun u => u.username = username then
    (db, false)
  else
    (⟨db.rows ++ [⟨db.next_id, username, hashF password⟩], db.next_id + 1⟩, true)

/-- `login`: SELECT the row whose username matches and whose stored digest
equals the digest of the supplied password. -/
def login (hashF : String → String) (db : UsersTable)
    (username password : String) : Option UserRow :=
  db.rows.find? fun u => u.username = username && u.password = hashF password

/-- Fold a batch of signup requests over the users table, mirroring how the
table is only ever populated through `signup`. -/
def signupMany (hashF : String → String) (db : UsersTable) :
    List (String × String) → UsersTable
  | [] => db
  | (u, p) :: rest => signupMany hashF (signup hashF db u p).1 rest

/-- The auto-increment discipline of the `users` table: the counter is at
least 1 and strictly above every assigned row id, every row id at least 1. -/
def AutoIncrementOk (db : UsersTable) : Prop :=
  1 ≤ db.next_id ∧ ∀ u ∈ db.rows, 1 ≤ u.id ∧ u.id < db.next_id

/-! ### Session state and main routing -/

/-- Streamlit session-state fields used by `main`. -/
structure SessionSt where
  logged_in : Bool
  is_moderator : Bool
  current_page : String
  username : Option String
  user_id : Option ℤ
deriving DecidableEq, Repr

/-- Initial session state set up at the top of `main`. -/
def initSession : SessionSt :=
  ⟨false, false, "Home", none, none⟩

/-- The sentinel `user_id` given to the moderator (`# special ID for mod`). -/
def moderatorUserId : ℤ := 0

/-- The Logout button handler: clears the login and moderator flags, goes
back to Home, and deletes `username` and `user_id`. -/
def logoutStep (_s : SessionSt) : SessionSt :=
  ⟨false, false, "Home", none, none⟩

/-- The Login form handler in `main`: the fixed username `"moderator"`
checked against the deployment secret `MOD_PASSWORD` (here the parameter
`modPassword`) takes priority and never touches the credential store;
otherwise `login` is consulted and a miss reports
"Invalid username or password". -/
def loginStep (hashF : String → String) (modPassword : String)
    (db : UsersTable) (username password : String) (s : SessionSt) :
    Except String SessionSt :=
  if username = "moderator" && password = modPassword then
    .ok { s with
      logged_in := true
      is_moderator := true
      username := some "moderator"
      user_id := some moderatorUserId }
  else
    match login hashF db username password with
    | some u =>
        .ok { s with
          logged_in := true
          username := some u.username
          user_id := some u.id }
    | none => .error "Invalid username or password"

/-- What the router renders for a given `current_page`. -/
inductive RenderResult where
  | homeView
  | page (handler : String)
  | blankView
deriving DecidableEq, Repr

/-- The `pages` dictionary lookup `pages.get(current_page)`: `"Home"` maps
to Python `None`, as does any key absent from the dictionary. -/
def pagesGet : String → Option String
  | "My Journal" => some "journal_page"
  | "Mood Tracker" => some "mood_tracker_page"
  | "Self-Screening" => some "screening_page"
  | "Connect" => some "connect_page"
  | "AI Companion" => some "chatbot_page"
  | "Resources" => some "resources_page"
  | _ => none

/-- Page routing at the bottom of `main`: `"Home"` renders the home view;
any other value renders the handler `pages.get` returns, and when that is
`None` (falsy) nothing is rendered — a blank body, not the home view. -/
def dispatch (current_page : String) : RenderResult :=
  if current_page = "Home" then .homeView
  else
    match pagesGet current_page with
    | some f => .page f
    | none => .blankView

end MentalHealthApp

namespace MentalHealthApp

/-! ### Helper lemmas -/

theorem inRangeB_eq_true {lo hi t : ℤ} : inRangeB lo hi t = true ↔ lo ≤ t ∧ t < hi := by
  simp [inRangeB]

theorem sum_bounds (l : List ℤ) (h : ∀ x ∈ l, 0 ≤ x ∧ x ≤ 3) :
    0 ≤ l.sum ∧ l.sum ≤ 3 * l.length := by
  induction l with
  | nil => simp
  | cons a l ih =>
      have ha := h a (by simp)
      have ih2 := ih fun x hx => h x (by simp [hx])
      simp only [List.sum_cons, List.length_cons]
      push_cast
      omega

/-! ### Claim theorems -/

/-- C1 counterexample: the code's top bands are `range(20, 100)` (PHQ-9) and
`range(15, 22)` (GAD-7), so the nonnegative totals 100 and 22 receive the
defensive `"Unknown"` label instead of the Severe label the claim assigns to
`[20,∞)` resp. `[15,∞)`. -/
theorem categorize_unknown_reachable :
    (0 : ℤ) ≤ 100 ∧ phq9Categorize 100 = "Unknown" ∧
      phq9Categorize 100 ≠ "Severe Depression" ∧
    (0 : ℤ) ≤ 22 ∧ gad7Categorize 22 = "Unknown" ∧
      gad7Categorize 22 ≠ "Severe Anxiety" := by
  refine ⟨by norm_num, rfl, ?_, by norm_num, rfl, ?_⟩ <;> decide

/-- C1 (amended): every integer total receives exactly one label, matching the
spec tables on `[0,100)` for PHQ-9 and on `[0,22)` for GAD-7 — which contain
every boundary total and every total achievable from valid responses — while
totals of at least 100 (PHQ-9) resp. 22 (GAD-7) fall through to `"Unknown"`. -/
theorem categorize_bands (t : ℤ) (ht : 0 ≤ t) :
    (t < 10 → phq9Categorize t = "None to Mild Depression" ∧
              gad7Categorize t = "None to Mild Anxiety") ∧
    (10 ≤ t → t < 15 → phq9Categorize t = "Moderate Depression" ∧
                       gad7Categorize t = "Moderate Anxiety") ∧
    (15 ≤ t → t < 20 → phq9Categorize t = "Moderately Severe Depression") ∧
    (15 ≤ t → t < 22 → gad7Categorize t = "Severe Anxiety") ∧
    (20 ≤ t → t < 100 → phq9Categorize t = "Severe Depression") ∧
    (100 ≤ t → phq9Categorize t = "Unknown") ∧
    (22 ≤ t → gad7Categorize t = "Unknown") := by
  unfold phq9Categorize gad7Categorize
  refine ⟨fun h1 => ⟨?_, ?_⟩, fun h1 h2 => ⟨?_, ?_⟩, fun h1 h2 => ?_,
         fun h1 h2 => ?_, fun h1 h2 => ?_, fun h1 => ?_, fun h1 => ?_⟩ <;>
    (split_ifs <;>
      first
        | rfl
        | (simp only [inRangeB_eq_true, inRangeB, Bool.and_eq_true,
              decide_eq_true_eq, Bool.not_eq_true, Bool.and_eq_false_iff,
              decide_eq_false_iff_not, not_and, not_lt, not_le] at *
           omega))

/-- C1 witness: the amended band theorem evaluated at the boundary total 15. -/
theorem categorize_bands_at_15 :
    phq9Categorize 15 = "Moderately Severe Depression" ∧
    gad7Categorize 15 = "Severe Anxiety" := by
  have h := categorize_bands 15 (by norm_num)
  exact ⟨h.2.2.1 (by norm_num) (by norm_num), h.2.2.2.1 (by norm_num) (by norm_num)⟩

/-- C2: for both instruments the crisis prompt is shown iff the computed total
is at least 10, and two submissions with equal totals make the same prompt
decision even across instruments whose category tables differ. -/
theorem crisis_prompt_iff (store sg : List ScreeningResult) (uid ug : ℤ)
    (results rg : List ℤ) :
    ((phq9Submit store uid results).2 = true ↔ 10 ≤ totalScore results) ∧
    ((gad7Submit store uid results).2 = true ↔ 10 ≤ totalScore results) ∧
    (totalScore results = totalScore rg →
      (phq9Submit store uid results).2 = (gad7Submit sg ug rg).2) := by
  refine ⟨?_, ?_, fun h => ?_⟩
  · simp [phq9Submit, escalation]
  · simp [gad7Submit, escalation]
  · simp [phq9Submit, gad7Submit, escalation, h]

/-- C2 witness: at total 15 the two instruments label differently yet both
escalate. -/
theorem crisis_prompt_at_15 :
    (phq9Submit [] 1 [15]).2 = (gad7Submit [] 1 [15]).2 := by
  exact (crisis_prompt_iff [] [] 1 1 [15] [15]).2.2 rfl

/-- C3: for valid response sequences the computed total is the sum of the
answers and lies within `[0,27]` for PHQ-9 and `[0,21]` for GAD-7. -/
theorem score_range (results : List ℤ) :
    (ValidResponses 9 results →
      totalScore results = results.sum ∧
      0 ≤ totalScore results ∧ totalScore results ≤ 27) ∧
    (ValidResponses 7 results →
      totalScore results = results.sum ∧
      0 ≤ totalScore results ∧ totalScore results ≤ 21) := by
  constructor <;>
    · rintro ⟨hlen, hmem⟩
      have hb := sum_bounds results hmem
      rw [hlen] at hb
      refine ⟨rfl, ?_, ?_⟩ <;> unfold totalScore <;> push_cast at hb <;> omega

/-- C3 witness: the all-threes PHQ-9 and GAD-7 sheets reach the maxima. -/
theorem score_range_at_max :
    totalScore [3, 3, 3, 3, 3, 3, 3, 3, 3] ≤ 27 ∧
    totalScore [3, 3, 3, 3, 3, 3, 3] ≤ 21 := by
  refine ⟨((score_range [3, 3, 3, 3, 3, 3, 3, 3, 3]).1 (by decide)).2.2,
          ((score_range [3, 3, 3, 3, 3, 3, 3]).2 (by decide)).2.2⟩

/-- C4: the engine performs no validation — a PHQ-9 sheet whose answers are
all 4 (outside `{0,1,2,3}`) and a sheet of wrong length 2 are both silently
scored, categorised and persisted instead of failing. -/
theorem malformed_response_scored :
    phq9Submit [] 1 [4, 4, 4, 4, 4, 4, 4, 4, 4] =
      ([⟨1, "PHQ-9", 36, "Severe Depression"⟩], true) ∧
    ¬ ValidResponses 9 [4, 4, 4, 4, 4, 4, 4, 4, 4] ∧
    phq9Submit [] 1 [1, 2] =
      ([⟨1, "PHQ-9", 3, "None to Mild Depression"⟩], false) ∧
    ¬ ValidResponses 9 [1, 2] := by
  exact ⟨rfl, by decide, rfl, by decide⟩

end MentalHealthApp

namespace MentalHealthApp

/-- C5: the reserved moderator login with the configured secret yields the
privileged session with the sentinel user id for any store contents; for any
other attempt, a store row matching username and password digest yields a
session carrying that row's username and id, and no match yields the
invalid-credentials error. -/
theorem login_behavior (hashF : String → String) (modPassword : String)
    (db : UsersTable) (username password : String) (s : SessionSt) :
    (loginStep hashF modPassword db "moderator" modPassword s =
      .ok { s with logged_in := true, is_moderator := true,
                   username := some "moderator",
                   user_id := some moderatorUserId }) ∧
    (¬(username = "moderator" ∧ password = modPassword) →
      ∀ u, login hashF db username password = some u →
        loginStep hashF modPassword db username password s =
          .ok { s with logged_in := true,
                       username := some u.username, user_id := some u.id }) ∧
    (¬(username = "moderator" ∧ password = modPassword) →
      login hashF db username password = none →
      loginStep hashF modPassword db username password s =
        .error "Invalid username or password") := by
  refine ⟨?_, fun h u hu => ?_, fun h hn => ?_⟩
  · simp [loginStep]
  · rw [loginStep, if_neg, hu]
    simp only [Bool.and_eq_true, decide_eq_true_eq]
    exact h
  · rw [loginStep, if_neg, hn]
    simp only [Bool.and_eq_true, decide_eq_true_eq]
    exact h

/-- C5 witness: a store holding alice with digest of "pw"; alice logs in with
her own password and gets her row's identity. -/
theorem login_behavior_alice :
    loginStep id "secret" ⟨[⟨1, "alice", "pw"⟩], 2⟩ "alice" "pw" initSession =
      .ok { initSession with logged_in := true,
                             username := some "alice", user_id := some 1 } := by
  exact (login_behavior id "secret" ⟨[⟨1, "alice", "pw"⟩], 2⟩ "alice" "pw"
      initSession).2.1 (by decide) ⟨1, "alice", "pw"⟩ rfl

/-- C6: signup with a username already present in the store reports failure
and returns the store completely unchanged, so the stored digest for that
username is untouched. -/
theorem signup_taken (hashF : String → String) (db : UsersTable)
    (username password : String) (h : ∃ u ∈ db.rows, u.username = username) :
    signup hashF db username password = (db, false) := by
  rw [signup, if_pos]
  simp only [List.any_eq_true, decide_eq_true_eq]
  exact h

/-- C6 witness: re-signing up alice with a new password leaves her row and
its digest as they were. -/
theorem signup_taken_alice :
    signup id ⟨[⟨1, "alice", "pw"⟩], 2⟩ "alice" "other" =
      (⟨[⟨1, "alice", "pw"⟩], 2⟩, false) := by
  exact signup_taken id ⟨[⟨1, "alice", "pw"⟩], 2⟩ "alice" "other"
    ⟨⟨1, "alice", "pw"⟩, by decide, rfl⟩

/-- C7: from any session state, logging out yields exactly the unauthenticated
initial state: flags cleared, page Home, identity discarded. -/
theorem logout_resets (s : SessionSt) :
    logoutStep s = initSession ∧
    (logoutStep s).logged_in = false ∧
    (logoutStep s).is_moderator = false ∧
    (logoutStep s).current_page = "Home" ∧
    (logoutStep s).username = none ∧
    (logoutStep s).user_id = none :=
  ⟨rfl, rfl, rfl, rfl, rfl, rfl⟩

/-- C8 counterexample: an unrecognized page value renders the blank view, not
the home view the claim promises. -/
theorem dispatch_unrecognized_blank :
    dispatch "Settings" = RenderResult.blankView ∧
    RenderResult.blankView ≠ RenderResult.homeView :=
  ⟨rfl, by decide⟩

/-- C8 (amended): dispatch is a pure total function of the page value — Home
renders the home view, a registered non-Home page renders its handler, and an
unrecognized value renders a blank body (no handler runs, no error), which is
not the home view. -/
theorem dispatch_behavior (p : String) :
    dispatch "Home" = RenderResult.homeView ∧
    (∀ f, p ≠ "Home" → pagesGet p = some f → dispatch p = RenderResult.page f) ∧
    (p ≠ "Home" → pagesGet p = none → dispatch p = RenderResult.blankView) := by
  refine ⟨rfl, fun f hp hf => ?_, fun hp hf => ?_⟩ <;>
    · rw [dispatch, if_neg, hf]
      simpa using hp

/-- C8 witness: the registered page "My Journal" dispatches to its handler. -/
theorem dispatch_behavior_journal :
    dispatch "My Journal" = RenderResult.page "journal_page" := by
  exact (dispatch_behavior "My Journal").2.1 "journal_page" (by decide) rfl

/-- C9: every scored submission appends exactly one result row — carrying the
user id, instrument, total and category — to the results table, whatever the
total (zero included), leaving all prior rows in place. -/
theorem submit_appends (store : List ScreeningResult) (uid : ℤ)
    (results : List ℤ) :
    (phq9Submit store uid results).1 =
      store ++ [⟨uid, "PHQ-9", totalScore results,
                 phq9Categorize (totalScore results)⟩] ∧
    (gad7Submit store uid results).1 =
      store ++ [⟨uid, "GAD-7", totalScore results,
                 gad7Categorize (totalScore results)⟩] ∧
    ((phq9Submit store uid results).1).length = store.length + 1 ∧
    ((gad7Submit store uid results).1).length = store.length + 1 := by
  refine ⟨rfl, rfl, ?_, ?_⟩ <;> simp [phq9Submit, gad7Submit]

end MentalHealthApp

namespace MentalHealthApp

theorem autoIncrementOk_init : AutoIncrementOk initUsersTable := by
  constructor
  · norm_num [initUsersTable]
  · intro u hu
    simp [initUsersTable] at hu

theorem autoIncrementOk_signup (hashF : String → String) (db : UsersTable)
    (username password : String) (h : AutoIncrementOk db) :
    AutoIncrementOk (signup hashF db username password).1 := by
  obtain ⟨h1, h2⟩ := h
  unfold signup
  split
  · exact ⟨h1, h2⟩
  · refine ⟨?_, fun u hu => ?_⟩
    · dsimp only
      omega
    · dsimp only at hu ⊢
      rw [List.mem_append, List.mem_singleton] at hu
      rcases hu with hu | hu
      · have := h2 u hu
        omega
      · subst hu
        dsimp only
        omega

theorem autoIncrementOk_signupMany (hashF : String → String) (db : UsersTable)
    (ops : List (String × String)) (h : AutoIncrementOk db) :
    AutoIncrementOk (signupMany hashF db ops) := by
  induction ops generalizing db with
  | nil => exact h
  | cons op rest ih =>
      exact ih (signup hashF db op.1 op.2).1
        (autoIncrementOk_signup hashF db op.1 op.2 h)

/-- C10: in a users table built from the empty table by signups, every stored
id is at least 1, hence distinct from the sentinel moderator user id 0 that a
privileged session carries. -/
theorem moderator_id_disjoint (hashF : String → String)
    (ops : List (String × String)) :
    ∀ u ∈ (signupMany hashF initUsersTable ops).rows,
      1 ≤ u.id ∧ u.id ≠ moderatorUserId := by
  intro u hu
  have h := (autoIncrementOk_signupMany hashF initUsersTable ops
    autoIncrementOk_init).2 u hu
  refine ⟨h.1, ?_⟩
  rw [moderatorUserId]
  omega

/-- C10 witness: the first user signed up gets id 1, which differs from the
moderator sentinel 0. -/
theorem moderator_id_disjoint_first :
    1 ≤ (1 : ℤ) ∧ (1 : ℤ) ≠ moderatorUserId := by
  exact moderator_id_disjoint id [("alice", "pw")] ⟨1, "alice", "pw"⟩ (by decide)

end MentalHealthApp
